import Mathlib

/-!
Verification of the Post-Bot image pipeline (`src/bot.py`): the face-aware
badge placement, the badge renderer, the 1280x720 scene composer, the
TMDB result filtering and the dpaste fallback are embedded shallowly and
their specified properties are proved or refuted.  External effects
(OpenCV face detection, PIL font metrics, network fetches, PNG encoding)
enter the embedding as explicit inputs so that each Python function
becomes a pure Lean function of its inputs plus those effect outcomes.
-/

namespace PostBot

/-- A detected face rectangle as produced by the OpenCV cascade detector
at bot.py line 243: `(x, y, w, h)` in pixels. -/
structure Face where
  x : Int
  y : Int
  w : Int
  h : Int
deriving DecidableEq

/-- Python `int(0.40 * height)` (bot.py lines 240 and 259).  For the
non-negative pixel heights that occur (all far below `2 ^ 50`), the exact
product `0.4 * height` has fractional part in `{0, .2, .4, .6, .8}`, so
the IEEE-754 rounding error never crosses an integer boundary and the
truncation equals `⌊2 * height / 5⌋`. -/
def int_point40 (height : Int) : Int :=
  (2 * height) / 5

/-- One step of the loop at bot.py lines 249-252: keep the larger of the
accumulator and the bottom edge `y + h` of the current face. -/
def bottomStep (acc : Int) (f : Face) : Int :=
  if f.y + f.h > acc then f.y + f.h else acc

/-- The loop of bot.py lines 248-252: the running maximum, started at 0,
of `y + h` over all detected faces (`lowest_y` in the source). -/
def lowestBottom (faces : List Face) : Int :=
  faces.foldl bottomStep 0

/-- `get_smart_badge_position` (bot.py lines 233-263).  The OpenCV calls
are abstracted into explicit inputs: `convOk` says whether the colour
conversions at lines 235-236 run without raising, `modelExists` is the
`os.path.exists` check on the cascade file (line 239), and `detect` is
`some faces` when `detectMultiScale` (line 243) returns `faces` and
`none` when it raises.  Every raised exception is caught at line 261 and
yields 200. -/
def get_smart_badge_position (height : Int) (convOk modelExists : Bool)
    (detect : Option (List Face)) : Int :=
  if convOk then
    if modelExists then
      match detect with
      | some faces =>
        if 0 < faces.length then
          if height - 130 < lowestBottom faces + 40 then 80
          else lowestBottom faces + 40
        else int_point40 height
      | none => 200
    else int_point40 height
  else 200

/-- A `draw.text` call: position, text and fill colour.  Font objects and
stroke options are not inspected by any verified property and are
omitted. -/
structure DrawCmd where
  x : Int
  y : Int
  text : String
  color : String
deriving DecidableEq

/-- Helper for `pyWords`: accumulate the current word (reversed) while
scanning the characters. -/
def wordsAux : List Char → List Char → List String
  | [], acc => if acc.isEmpty then [] else [String.mk acc.reverse]
  | c :: cs, acc =>
    if c.isWhitespace then
      if acc.isEmpty then wordsAux cs [] else String.mk acc.reverse :: wordsAux cs []
    else wordsAux cs (c :: acc)

/-- Python `text.split()` with no argument (bot.py line 296): split on
runs of whitespace, discarding empty pieces. -/
def pyWords (s : String) : List String :=
  wordsAux s.data []

/-- The text-drawing calls of `apply_badge_to_poster` at bot.py lines
295-303, with the measured advance width of the font abstracted as `tl`
(`draw.textlength`).  Two or more words: first word at `(cx, cy)` in
`#FFEB3B`, the joined rest at `(cx + w1 + 15, cy)` in `#FF5722`;
otherwise the whole caption at `(cx, cy)` in `#FFEB3B`. -/
def badgeTextCmds (tl : String → Int) (cx cy : Int) (text : String) : List DrawCmd :=
  if 2 ≤ (pyWords text).length then
    [⟨cx, cy, (pyWords text).headD "", "#FFEB3B"⟩,
     ⟨cx + tl ((pyWords text).headD "") + 15, cy,
      String.intercalate " " (pyWords text).tail, "#FF5722"⟩]
  else
    [⟨cx, cy, text, "#FFEB3B"⟩]

/-- The composited badge produced by the successful path of
`apply_badge_to_poster` (bot.py lines 267-303): badge position, padded
box and the two-tone text draws. -/
structure BadgeRender where
  pos_x : Int
  pos_y : Int
  box_w : Int
  box_h : Int
  textCmds : List DrawCmd

/-- The effectful context of one `apply_badge_to_poster` call: `ok` is
whether the whole try block (bot.py lines 266-308) runs without raising,
the next four fields feed `get_smart_badge_position`, `bbox` and `tl` are
the PIL font metrics (`draw.textbbox`, `draw.textlength`), and `encode`
is the PNG re-encoding of the composited image (lines 305-308). -/
structure BadgeEnv where
  ok : Bool
  width : Int
  height : Int
  convOk : Bool
  modelExists : Bool
  detect : Option (List Face)
  bbox : String → Int × Int × Int × Int
  tl : String → Int
  encode : BadgeRender → List UInt8

/-- The successful path of `apply_badge_to_poster` (bot.py lines
267-303): `text_w`/`text_h` from the text bounding box, paddings 40 and
20, the box centred horizontally (Python floor division), and the text
anchor at `(pos_x + 40, pos_y + 20 - 12)`. -/
def badgeRender (text : String) (env : BadgeEnv) : BadgeRender :=
  { pos_x := Int.ediv (env.width - ((env.bbox text).2.2.1 - (env.bbox text).1 + 40 * 2)) 2
    pos_y := get_smart_badge_position env.height env.convOk env.modelExists env.detect
    box_w := (env.bbox text).2.2.1 - (env.bbox text).1 + 40 * 2
    box_h := (env.bbox text).2.2.2 - (env.bbox text).2.1 + 20 * 2
    textCmds := badgeTextCmds env.tl
      (Int.ediv (env.width - ((env.bbox text).2.2.1 - (env.bbox text).1 + 40 * 2)) 2 + 40)
      (get_smart_badge_position env.height env.convOk env.modelExists env.detect + 20 - 12)
      text }

/-- `apply_badge_to_poster` (bot.py lines 265-311): on success the
re-encoded composited image is returned; on any exception inside the try
block the original poster bytes are returned unchanged (line 311). -/
def apply_badge_to_poster (poster_bytes : List UInt8) (text : String)
    (env : BadgeEnv) : List UInt8 :=
  if env.ok then env.encode (badgeRender text env) else poster_bytes

/-- The list comprehension at bot.py line 556:
`[overview[i:i+80] for i in range(0, len(overview), 80)]`.  Python
`range(0, L, 80)` enumerates `⌈L/80⌉` start indices `80*i`, and the
slice `[i:i+80]` is drop-then-take on the characters. -/
def chunks80 (l : List Char) : List (List Char) :=
  (List.range ((l.length + 79) / 80)).map fun i => (l.drop (80 * i)).take 80

/-- bot.py line 556 continued: the chunk strings, capped by `[:6]`. -/
def overviewLines (overview : String) : List String :=
  ((chunks80 overview.data).map fun c => String.mk c).take 6

/-- The loop at bot.py lines 557-560: draw each wrapped line at x = 480,
starting at y and stepping y by 30, in colour `#E0E0E0`. -/
def drawLinesFrom : Int → List String → List DrawCmd
  | _, [] => []
  | y, line :: rest => ⟨480, y, line, "#E0E0E0"⟩ :: drawLinesFrom (y + 30) rest

/-- The overview draw calls of `generate_image` (bot.py lines 555-560),
starting at `y_text = 250`. -/
def overviewLineCmds (overview : String) : List DrawCmd :=
  drawLinesFrom 250 (overviewLines overview)

/-- Which fetched byte string a decoded bitmap came from. -/
inductive ImgOrigin where
  | posterBytes
  | backdropBytes
deriving DecidableEq

/-- A PIL image expression, tracking provenance and dimensions of every
intermediate image built by `generate_image`. -/
inductive PILImg where
  | bytesDecoded (origin : ImgOrigin) (w h : Nat)
  | newRGBA (w h : Nat) (r g b a : Nat)
  | resize (img : PILImg) (w h : Nat)
  | blur (img : PILImg) (radius : Nat)
  | alphaComposite (base overlay : PILImg)
  | pasted (base img : PILImg) (x y : Nat)
  | drawn (base : PILImg) (cmds : List DrawCmd)
deriving DecidableEq

/-- Pixel dimensions of a PIL image expression: `Image.new` and `resize`
fix them, filters keep them, compositing and pasting keep the base ones. -/
def PILImg.dims : PILImg → Nat × Nat
  | .bytesDecoded _ w h => (w, h)
  | .newRGBA w h _ _ _ _ => (w, h)
  | .resize _ w h => (w, h)
  | .blur i _ => i.dims
  | .alphaComposite b _ => b.dims
  | .pasted b _ _ _ => b.dims
  | .drawn b _ => b.dims

/-- The image which supplies the full-canvas background of a composed
scene: descend through the draw and paste layers to the base of the
outermost alpha-composite. -/
def canvasBackground : PILImg → Option PILImg
  | .drawn b _ => canvasBackground b
  | .pasted b _ _ _ => canvasBackground b
  | .alphaComposite base _ => some base
  | _ => none

/-- The fields of the metadata dict that `generate_image`,
`generate_formatted_caption` and `generate_html_code` read.  `Option`
models a key that is absent or Python-falsy; `voteDisplay` is the
`{vote_average:.1f}` float rendering kept abstract as a string. -/
structure MediaData where
  title : Option String
  name : Option String
  overview : String
  release_date : Option String
  first_air_date : Option String
  genres : List String
  voteDisplay : String
  manual_poster_url : Option String
  poster_path : Option String
  backdrop_path : Option String
  badge_text : Option String
  is_manual : Bool
deriving DecidableEq

/-- Outcomes of the network fetches and image decodes of one
`generate_image` call: whether the poster bytes were fetched and decoded
(lines 516 and 522), whether the backdrop bytes were (lines 529-530),
and the natural dimensions of the decoded bitmaps. -/
structure FetchEnv where
  posterOk : Bool
  backdropOk : Bool
  posterW : Nat
  posterH : Nat
  backdropW : Nat
  backdropH : Nat
deriving DecidableEq

/-- bot.py lines 509-514: manual poster URL if set, else the TMDB w500
poster URL if a poster path is set, else no URL at all. -/
def posterUrl (d : MediaData) : Option String :=
  match d.manual_poster_url with
  | some u => some u
  | none =>
    match d.poster_path with
    | some p => some ("https://image.tmdb.org/t/p/w500" ++ p)
    | none => none

/-- bot.py line 545: `title = data.get("title") or data.get("name")`; a
record with neither renders as the Python literal None in the f-string. -/
def displayTitle (d : MediaData) : String :=
  match d.title with
  | some t => t
  | none =>
    match d.name with
    | some n => n
    | none => "None"

/-- bot.py lines 546-547: first four characters of the release date, the
first-air date, or the dashes placeholder; blanked for manual records. -/
def displayYear (d : MediaData) : String :=
  if d.is_manual then ""
  else String.mk (((d.release_date.getD (d.first_air_date.getD "----")).data).take 4)

/-- The title, rating and genre draw calls of `generate_image` (bot.py
lines 549-553); rating and genres are skipped for manual records. -/
def metaCmds (d : MediaData) : List DrawCmd :=
  ⟨480, 80, displayTitle d ++ " " ++ displayYear d, "white"⟩ ::
    (if d.is_manual then []
     else [⟨480, 140, "⭐ " ++ d.voteDisplay ++ "/10", "#00e676"⟩,
           ⟨480, 180, String.intercalate " | " d.genres, "#00bcd4"⟩])

/-- bot.py line 522: the decoded poster bitmap resized to the 400x600
thumbnail.  Badge compositing (lines 518-520) re-encodes the poster
bytes but never changes which fetched image they decode to. -/
def giPosterImg (env : FetchEnv) : PILImg :=
  PILImg.resize (PILImg.bytesDecoded ImgOrigin.posterBytes env.posterW env.posterH) 400 600

/-- bot.py lines 525-531: the backdrop is fetched only when a backdrop
path is present and the record is not manual; a fetch or decode failure
there is swallowed by the inner `except: pass`, leaving no backdrop. -/
def giBackdropFetched (d : MediaData) (env : FetchEnv) : Option PILImg :=
  match d.backdrop_path with
  | some _ =>
    if !d.is_manual then
      if env.backdropOk then
        some (PILImg.resize
          (PILImg.bytesDecoded ImgOrigin.backdropBytes env.backdropW env.backdropH) 1280 720)
      else none
    else none
  | none => none

/-- bot.py lines 533-536: fall back to the poster scaled to 1280x720 when
no backdrop was obtained, then Gaussian-blur with radius 10. -/
def giBackdrop (d : MediaData) (env : FetchEnv) (poster_img : PILImg) : PILImg :=
  PILImg.blur ((giBackdropFetched d env).getD (PILImg.resize poster_img 1280 720)) 10

/-- The canvas built by the successful path of `generate_image` (bot.py
lines 522-560): blurred background darkened by an alpha-composite with a
black 150-alpha layer, the poster thumbnail pasted at (50, 60), then the
title, metadata and wrapped overview text drawn on top. -/
def giCanvas (d : MediaData) (env : FetchEnv) : PILImg :=
  PILImg.drawn
    (PILImg.pasted
      (PILImg.alphaComposite (giBackdrop d env (giPosterImg env))
        (PILImg.newRGBA 1280 720 0 0 0 150))
      (giPosterImg env) 50 60)
    (metaCmds d ++ overviewLineCmds d.overview)

/-- `generate_image` (bot.py lines 507-570): no poster URL returns the
null pair at line 514; a poster fetch or decode failure raises into the
except at lines 568-570 and also returns the null pair; otherwise the
composed canvas is returned. -/
def generate_image (d : MediaData) (env : FetchEnv) : Option PILImg :=
  match posterUrl d with
  | none => none
  | some _ => if env.posterOk then some (giCanvas d env) else none

/-- Python `"dpaste.com" in link` (bot.py line 226): substring test. -/
def strContains (s pat : String) : Bool :=
  decide (pat.data <:+: s.data)

/-- `create_paste_link` (bot.py lines 220-228): empty content returns
`none` immediately; `resp` is the text of the dpaste POST (`none` when
the request failed); the response counts as a link only when it contains
dpaste.com, and is stripped before being returned. -/
def create_paste_link (content : String) (resp : Option String) : Option String :=
  if content = "" then none
  else
    match resp with
    | none => none
    | some link => if strContains link "dpaste.com" then some link.trim else none

/-- Python `str.encode()` (bot.py line 821): the UTF-8 bytes. -/
def pyEncode (s : String) : List UInt8 :=
  s.toUTF8.toList

/-- What the `get_code` callback handler sends back (bot.py lines
816-823): either the paste link message or a document attachment. -/
inductive GetCodeOutcome where
  | sentLink (link : String)
  | sentFile (fileName : String) (fileBytes : List UInt8) (caption : String)
deriving DecidableEq

/-- The decision of `get_code` on a finalized HTML string (bot.py lines
816-823): a successful paste link is replied as text, otherwise the
encoded HTML is sent as the file `blogger_post.html`. -/
def get_code (html : String) (pasteResp : Option String) : GetCodeOutcome :=
  match create_paste_link html pasteResp with
  | some link => GetCodeOutcome.sentLink link
  | none =>
    GetCodeOutcome.sentFile "blogger_post.html" (pyEncode html)
      "⚠️ Link failed. File attached."

/-- One entry of the TMDB multi-search response, reduced to the fields
`search_tmdb` inspects. -/
structure TMDBResult where
  media_type : Option String
  id : Nat
deriving DecidableEq

/-- The result handling of `search_tmdb` (bot.py lines 208-210): a failed
fetch (`data` falsy) returns the empty list; otherwise keep only the
results whose media type is movie or tv, capped at 15. -/
def search_tmdb (data : Option (List TMDBResult)) : List TMDBResult :=
  match data with
  | none => []
  | some rs =>
    (rs.filter fun r => r.media_type == some "movie" || r.media_type == some "tv").take 15

/-! Concrete inputs used by the witness and counterexample theorems. -/

/-- A sample detected face with bottom edge 20 + 40 = 60. -/
def wFace : Face := ⟨10, 20, 30, 40⟩

/-- A width-proportional text measure used as a sample font metric. -/
def tlTen (s : String) : Int :=
  10 * (s.length : Int)

/-- A badge environment whose try block raises (`ok := false`). -/
def failBadgeEnv : BadgeEnv :=
  { ok := false, width := 500, height := 750, convOk := true, modelExists := true,
    detect := some [], bbox := fun _ => (0, 0, 0, 0), tl := fun _ => 0,
    encode := fun _ => [] }

/-- A TMDB record with no backdrop path (and a valid poster path). -/
def noBackdropData : MediaData :=
  { title := some "Avatar", name := none, overview := "A marine on an alien moon.",
    release_date := some "2009-12-18", first_air_date := none,
    genres := ["Action", "Adventure"], voteDisplay := "7.6",
    manual_poster_url := none, poster_path := some "/p0.jpg",
    backdrop_path := none, badge_text := none, is_manual := false }

/-- A fetch environment where every fetch and decode succeeds. -/
def allOkEnv : FetchEnv :=
  { posterOk := true, backdropOk := true, posterW := 500, posterH := 750,
    backdropW := 1280, backdropH := 720 }

/-- A TMDB record that does carry a backdrop path. -/
def withBackdropData : MediaData :=
  { title := some "Dune", name := none, overview := "",
    release_date := some "2021-10-22", first_air_date := none,
    genres := [], voteDisplay := "7.8",
    manual_poster_url := none, poster_path := some "/p1.jpg",
    backdrop_path := some "/b1.jpg", badge_text := none, is_manual := false }

/-- A fetch environment where the backdrop fetch fails but the poster
fetch succeeds. -/
def backdropFailEnv : FetchEnv :=
  { posterOk := true, backdropOk := false, posterW := 500, posterH := 750,
    backdropW := 1280, backdropH := 720 }

/-- A second record with a backdrop path, for the composition-failure
counterexample. -/
def withBackdropData2 : MediaData :=
  { title := none, name := some "Loki", overview := "Variants.",
    release_date := none, first_air_date := some "2021-06-09",
    genres := ["Drama"], voteDisplay := "8.2",
    manual_poster_url := none, poster_path := some "/p2.jpg",
    backdrop_path := some "/b2.jpg", badge_text := none, is_manual := false }

/-- A second environment with a failing backdrop fetch. -/
def backdropFailEnv2 : FetchEnv :=
  { posterOk := true, backdropOk := false, posterW := 342, posterH := 513,
    backdropW := 1280, backdropH := 720 }

/-- A sample TMDB search response mixing accepted and rejected types. -/
def sampleResults : List TMDBResult :=
  [{ media_type := some "movie", id := 1 }, { media_type := some "person", id := 2 },
   { media_type := some "tv", id := 3 }]

/-! Helper lemmas. -/

theorem accent_colors_distinct : ("#FFEB3B" : String) ≠ "#FF5722" := by
  decide

theorem le_foldl_bottom (faces : List Face) : ∀ a : Int, a ≤ faces.foldl bottomStep a := by
  induction faces with
  | nil => intro a; exact le_refl a
  | cons g gs ih =>
    intro a
    simp only [List.foldl_cons]
    refine le_trans ?_ (ih (bottomStep a g))
    unfold bottomStep
    split <;> omega

theorem mem_le_foldl_bottom (faces : List Face) (f : Face) :
    f ∈ faces → ∀ a : Int, f.y + f.h ≤ faces.foldl bottomStep a := by
  induction faces with
  | nil => intro hf; cases hf
  | cons g gs ih =>
    intro hf a
    simp only [List.foldl_cons]
    rcases List.mem_cons.mp hf with h | h
    · have hg : f.y + f.h ≤ bottomStep a g := by
        unfold bottomStep
        rw [h]
        split <;> omega
      exact le_trans hg (le_foldl_bottom gs (bottomStep a g))
    · exact ih h (bottomStep a g)

theorem foldl_bottom_cases (faces : List Face) :
    ∀ a : Int, faces.foldl bottomStep a = a ∨
      ∃ f ∈ faces, faces.foldl bottomStep a = f.y + f.h := by
  induction faces with
  | nil => intro a; exact Or.inl rfl
  | cons g gs ih =>
    intro a
    simp only [List.foldl_cons]
    rcases ih (bottomStep a g) with h | ⟨f, hf, h⟩
    · rw [h]
      unfold bottomStep
      by_cases hg : g.y + g.h > a
      · exact Or.inr ⟨g, List.mem_cons_self g gs, by rw [if_pos hg]⟩
      · exact Or.inl (by rw [if_neg hg])
    · exact Or.inr ⟨f, List.mem_cons_of_mem g hf, h⟩

/-- C1: with at least one face detected, the badge offset is the bottom
edge of the bottom-most face plus the fixed 40-pixel margin whenever that
is at most `height - 130`, and the fixed fallback 80 otherwise.  `B`
names the bottom edge of the lowest face: an upper bound on all face
bottoms that is attained by some face (and non-negative, as every
detector rectangle is). -/
theorem badge_position_face_case (height B : Int) (faces : List Face)
    (hB0 : 0 ≤ B)
    (hub : ∀ f ∈ faces, f.y + f.h ≤ B)
    (hmem : ∃ f ∈ faces, f.y + f.h = B) :
    get_smart_badge_position height true true (some faces) =
      if B + 40 ≤ height - 130 then B + 40 else 80 := by
  obtain ⟨f0, hf0, hf0B⟩ := hmem
  have hlen : 0 < faces.length := List.length_pos.mpr (List.ne_nil_of_mem hf0)
  have hLB : lowestBottom faces = B := by
    have h1 : f0.y + f0.h ≤ faces.foldl bottomStep 0 := mem_le_foldl_bottom faces f0 hf0 0
    have h2 : faces.foldl bottomStep 0 ≤ B := by
      rcases foldl_bottom_cases faces 0 with h | ⟨f, hf, h⟩
      · omega
      · have := hub f hf
        omega
    unfold lowestBottom
    omega
  by_cases hcond : B + 40 ≤ height - 130
  · have hlt : ¬ (height - 130 < B + 40) := by omega
    simp [get_smart_badge_position, hlen, hLB, hlt, hcond]
  · have hlt : height - 130 < B + 40 := by omega
    simp [get_smart_badge_position, hlen, hLB, hlt, hcond]

/-- Witness for C1 at a concrete face list and image height. -/
theorem badge_position_face_case_witness :
    get_smart_badge_position 500 true true (some [wFace]) =
      if (60 : Int) + 40 ≤ 500 - 130 then 60 + 40 else 80 :=
  badge_position_face_case 500 60 [wFace] (by decide) (by decide)
    ⟨wFace, by decide, by decide⟩

/-- C2: with the detector running successfully but finding zero faces,
the badge offset is `int(0.40 * height)`, whatever the image content
was. -/
theorem badge_position_no_face (height : Int) :
    get_smart_badge_position height true true (some []) = int_point40 height := by
  simp [get_smart_badge_position]

/-- C3 counterexample: the two failure paths of the badge-position
function do not return one fixed constant: at height 1000, a missing
model file yields 400 (which is height-dependent) while a raised
exception yields 200. -/
theorem badge_position_failure_not_constant :
    get_smart_badge_position 1000 true false none = 400 ∧
    get_smart_badge_position 1000 false false none = 200 ∧
    (400 : Int) ≠ 200 := by
  decide

/-- C3 amended: no detector failure raises, but the fallbacks differ by
failure kind: a raised exception (during conversion or detection) yields
the constant 200, while a missing model file yields the height-dependent
`int(0.40 * height)`. -/
theorem badge_position_failure_fallbacks (height : Int) (convOk modelExists : Bool)
    (detect : Option (List Face)) :
    (convOk = false → get_smart_badge_position height convOk modelExists detect = 200) ∧
    (convOk = true → modelExists = false →
      get_smart_badge_position height convOk modelExists detect = int_point40 height) ∧
    (convOk = true → modelExists = true → detect = none →
      get_smart_badge_position height convOk modelExists detect = 200) := by
  refine ⟨fun h => ?_, fun h1 h2 => ?_, fun h1 h2 h3 => ?_⟩
  · simp [get_smart_badge_position, h]
  · simp [get_smart_badge_position, h1, h2]
  · simp [get_smart_badge_position, h1, h2, h3]

/-- Witness for the amended C3 on each failure path. -/
theorem badge_position_failure_fallbacks_witness :
    get_smart_badge_position 720 false true (some []) = 200 ∧
    get_smart_badge_position 720 true false (some []) = int_point40 720 ∧
    get_smart_badge_position 900 true true none = 200 :=
  ⟨(badge_position_failure_fallbacks 720 false true (some [])).1 rfl,
   (badge_position_failure_fallbacks 720 true false (some [])).2.1 rfl rfl,
   (badge_position_failure_fallbacks 900 true true none).2.2 rfl rfl rfl⟩

/-- C4: a caption of two or more whitespace-separated tokens is drawn as
two spans: the first token in `#FFEB3B`, the joined remaining tokens in
the distinct colour `#FF5722`, the second span starting at the measured
end of the first plus a 15-pixel gap, so the closed horizontal extents
`[x, x + tl text]` of the two spans are disjoint.  A caption of exactly
one token is drawn as a single span of the whole caption in `#FFEB3B`. -/
theorem badge_two_tone (tl : String → Int) (cx cy : Int) (text : String) :
    (2 ≤ (pyWords text).length →
      ∃ c1 c2, badgeTextCmds tl cx cy text = [c1, c2] ∧
        c1.color = "#FFEB3B" ∧ c2.color = "#FF5722" ∧ c1.color ≠ c2.color ∧
        c1.text = (pyWords text).headD "" ∧
        c2.text = String.intercalate " " (pyWords text).tail ∧
        c2.x = cx + tl ((pyWords text).headD "") + 15 ∧
        c1.x + tl c1.text < c2.x) ∧
    ((pyWords text).length = 1 →
      badgeTextCmds tl cx cy text = [⟨cx, cy, text, "#FFEB3B"⟩]) := by
  constructor
  · intro h
    have heq : badgeTextCmds tl cx cy text =
        [⟨cx, cy, (pyWords text).headD "", "#FFEB3B"⟩,
         ⟨cx + tl ((pyWords text).headD "") + 15, cy,
          String.intercalate " " (pyWords text).tail, "#FF5722"⟩] := by
      unfold badgeTextCmds
      rw [if_pos h]
    refine ⟨_, _, heq, rfl, rfl, accent_colors_distinct, rfl, rfl, rfl, ?_⟩
    show cx + tl ((pyWords text).headD "") < cx + tl ((pyWords text).headD "") + 15
    omega
  · intro h
    have hn : ¬ 2 ≤ (pyWords text).length := by omega
    unfold badgeTextCmds
    rw [if_neg hn]

/-- Witness for C4: a two-token caption and a one-token caption, with a
concrete width-proportional text measure. -/
theorem badge_two_tone_witness :
    (∃ c1 c2, badgeTextCmds tlTen 100 50 "Hindi Dubbed" = [c1, c2] ∧
      c1.color = "#FFEB3B" ∧ c2.color = "#FF5722" ∧ c1.color ≠ c2.color ∧
      c1.text = (pyWords "Hindi Dubbed").headD "" ∧
      c2.text = String.intercalate " " (pyWords "Hindi Dubbed").tail ∧
      c2.x = 100 + tlTen ((pyWords "Hindi Dubbed").headD "") + 15 ∧
      c1.x + tlTen c1.text < c2.x) ∧
    badgeTextCmds tlTen 100 50 "Bangla" = [⟨100, 50, "Bangla", "#FFEB3B"⟩] :=
  ⟨(badge_two_tone tlTen 100 50 "Hindi Dubbed").1 (by decide),
   (badge_two_tone tlTen 100 50 "Bangla").2 (by decide)⟩

/-! Helper lemmas about the overview wrapping. -/

theorem length_drawLinesFrom (l : List String) :
    ∀ y : Int, (drawLinesFrom y l).length = l.length := by
  induction l with
  | nil => intro y; rfl
  | cons s rest ih =>
    intro y
    simp only [drawLinesFrom, List.length_cons, ih]

theorem text_mem_drawLinesFrom (l : List String) :
    ∀ (y : Int) (cmd : DrawCmd), cmd ∈ drawLinesFrom y l → cmd.text ∈ l := by
  induction l with
  | nil => intro y cmd h; cases h
  | cons s rest ih =>
    intro y cmd h
    simp only [drawLinesFrom] at h
    rcases List.mem_cons.mp h with h | h
    · rw [h]
      exact List.mem_cons_self _ _
    · exact List.mem_cons_of_mem _ (ih (y + 30) cmd h)

/-- C5: the scene composer draws exactly `min(⌈L/80⌉, 6)` overview lines,
and every drawn line is the 80-character slice of the overview starting
at some multiple of 80 (hence at most 80 characters long). -/
theorem overview_wrap_count (overview : String) :
    (overviewLineCmds overview).length = min ((overview.length + 79) / 80) 6 ∧
    ∀ cmd ∈ overviewLineCmds overview, ∃ i,
      cmd.text = String.mk ((overview.data.drop (80 * i)).take 80) ∧
      cmd.text.length ≤ 80 := by
  constructor
  · unfold overviewLineCmds
    rw [length_drawLinesFrom]
    unfold overviewLines chunks80
    rw [List.length_take, List.length_map, List.length_map, List.length_range, Nat.min_comm]
    rfl
  · intro cmd hcmd
    have htext : cmd.text ∈ overviewLines overview :=
      text_mem_drawLinesFrom (overviewLines overview) 250 cmd hcmd
    have htake := List.mem_of_mem_take htext
    obtain ⟨chunk, hchunk, hmk⟩ := List.mem_map.mp htake
    obtain ⟨i, _, hslice⟩ := List.mem_map.mp hchunk
    refine ⟨i, by rw [← hmk, ← hslice], ?_⟩
    rw [← hmk, ← hslice]
    exact List.length_take_le 80 _

/-- Witness for C5 on a concrete short overview. -/
theorem overview_wrap_count_witness :
    (overviewLineCmds "Plot.").length = min (("Plot.".length + 79) / 80) 6 ∧
    ∃ i, (⟨480, 250, "Plot.", "#E0E0E0"⟩ : DrawCmd).text =
        String.mk (("Plot.".data.drop (80 * i)).take 80) ∧
      (⟨480, 250, "Plot.", "#E0E0E0"⟩ : DrawCmd).text.length ≤ 80 :=
  ⟨(overview_wrap_count "Plot.").1,
   (overview_wrap_count "Plot.").2 ⟨480, 250, "Plot.", "#E0E0E0"⟩ (by decide)⟩

/-- C10: whenever any step of badge compositing raises (decode, font,
drawing or encoding), `apply_badge_to_poster` returns the original
poster bytes unchanged instead of propagating the error. -/
theorem badge_failure_returns_original (poster_bytes : List UInt8) (text : String)
    (env : BadgeEnv) (h : env.ok = false) :
    apply_badge_to_poster poster_bytes text env = poster_bytes := by
  simp [apply_badge_to_poster, h]

/-- Witness for C10 on concrete bytes and a raising environment. -/
theorem badge_failure_returns_original_witness :
    apply_badge_to_poster [137, 80, 78, 71] "Bangla Dub" failBadgeEnv = [137, 80, 78, 71] :=
  badge_failure_returns_original [137, 80, 78, 71] "Bangla Dub" failBadgeEnv rfl

/-! Helper lemmas about the scene composer. -/

theorem generate_image_ok (d : MediaData) (env : FetchEnv)
    (hurl : (posterUrl d).isSome = true) (hok : env.posterOk = true) :
    generate_image d env = some (giCanvas d env) := by
  obtain ⟨u, hu⟩ := Option.isSome_iff_exists.mp hurl
  unfold generate_image
  rw [hu, hok]
  simp

theorem canvasBackground_giCanvas (d : MediaData) (env : FetchEnv) :
    canvasBackground (giCanvas d env) = some (giBackdrop d env (giPosterImg env)) :=
  rfl

theorem giBackdropFetched_dims (d : MediaData) (env : FetchEnv) (b : PILImg)
    (h : giBackdropFetched d env = some b) : PILImg.dims b = (1280, 720) := by
  unfold giBackdropFetched at h
  split at h
  · split at h
    · split at h
      · injection h with h2
        rw [← h2]
        rfl
      · cases h
    · cases h
  · cases h

theorem dims_giCanvas (d : MediaData) (env : FetchEnv) :
    PILImg.dims (giCanvas d env) = (1280, 720) := by
  show PILImg.dims (giBackdrop d env (giPosterImg env)) = (1280, 720)
  show PILImg.dims ((giBackdropFetched d env).getD
    (PILImg.resize (giPosterImg env) 1280 720)) = (1280, 720)
  cases h : giBackdropFetched d env with
  | none => rfl
  | some b => exact giBackdropFetched_dims d env b h

/-- C6 counterexample: the record `withBackdropData` carries a backdrop
reference, yet when the backdrop fetch fails the blurred background is
the scaled poster, not the backdrop — so a backdrop reference alone does
not make the backdrop supply the background. -/
theorem backdrop_source_counterexample :
    withBackdropData.backdrop_path ≠ none ∧
    (generate_image withBackdropData backdropFailEnv).bind canvasBackground =
      some (PILImg.blur (PILImg.resize (giPosterImg backdropFailEnv) 1280 720) 10) ∧
    (generate_image withBackdropData backdropFailEnv).bind canvasBackground ≠
      some (PILImg.blur (PILImg.resize
        (PILImg.bytesDecoded ImgOrigin.backdropBytes backdropFailEnv.backdropW
          backdropFailEnv.backdropH) 1280 720) 10) := by
  decide

/-- C6 amended: with the poster fetched and decoded, composition yields a
canvas of exactly 1280x720; with no backdrop reference its blurred
background is the scaled poster; the backdrop supplies the blurred
background when a backdrop reference is present, the record is not
manual, and the backdrop fetch and decode succeed. -/
theorem scene_background_sources (d : MediaData) (env : FetchEnv)
    (hurl : (posterUrl d).isSome = true) (hok : env.posterOk = true) :
    ∃ c, generate_image d env = some c ∧ PILImg.dims c = (1280, 720) ∧
      (d.backdrop_path = none →
        canvasBackground c =
          some (PILImg.blur (PILImg.resize (giPosterImg env) 1280 720) 10)) ∧
      (d.backdrop_path ≠ none → d.is_manual = false → env.backdropOk = true →
        canvasBackground c =
          some (PILImg.blur (PILImg.resize
            (PILImg.bytesDecoded ImgOrigin.backdropBytes env.backdropW env.backdropH)
            1280 720) 10)) := by
  refine ⟨giCanvas d env, generate_image_ok d env hurl hok, dims_giCanvas d env, ?_, ?_⟩
  · intro hbp
    rw [canvasBackground_giCanvas]
    unfold giBackdrop giBackdropFetched
    rw [hbp]
    rfl
  · intro hbp hm hbo
    rw [canvasBackground_giCanvas]
    obtain ⟨p, hp⟩ := Option.ne_none_iff_exists.mp hbp
    unfold giBackdrop giBackdropFetched
    rw [← hp, hm, hbo]
    rfl

/-- Witness for the amended C6: a record with no backdrop reference and
all fetches succeeding. -/
theorem scene_background_sources_witness :
    ∃ c, generate_image noBackdropData allOkEnv = some c ∧ PILImg.dims c = (1280, 720) ∧
      (noBackdropData.backdrop_path = none →
        canvasBackground c =
          some (PILImg.blur (PILImg.resize (giPosterImg allOkEnv) 1280 720) 10)) ∧
      (noBackdropData.backdrop_path ≠ none → noBackdropData.is_manual = false →
        allOkEnv.backdropOk = true →
        canvasBackground c =
          some (PILImg.blur (PILImg.resize
            (PILImg.bytesDecoded ImgOrigin.backdropBytes allOkEnv.backdropW
              allOkEnv.backdropH) 1280 720) 10)) :=
  scene_background_sources noBackdropData allOkEnv rfl rfl

/-- C7 counterexample: with a valid poster but a failing backdrop fetch,
`generate_image` still returns a composed canvas rather than the null
result the claim demands for every fetch failure. -/
theorem compose_failure_claim_counterexample :
    backdropFailEnv2.backdropOk = false ∧
    generate_image withBackdropData2 backdropFailEnv2 ≠ none := by
  decide

/-- C7 amended: a poster fetch or decode failure makes the whole
composition report failure (the null result); a backdrop fetch or decode
failure, however, is silently swallowed and a fully composed canvas is
returned, with the blurred scaled poster as its background. -/
theorem compose_failure_handling (d : MediaData) (env : FetchEnv) :
    (env.posterOk = false → generate_image d env = none) ∧
    ((posterUrl d).isSome = true → env.posterOk = true → env.backdropOk = false →
      ∃ c, generate_image d env = some c ∧
        canvasBackground c =
          some (PILImg.blur (PILImg.resize (giPosterImg env) 1280 720) 10)) := by
  constructor
  · intro h
    unfold generate_image
    cases hp : posterUrl d with
    | none => rfl
    | some u => rw [h]; simp
  · intro hurl hok hbo
    refine ⟨giCanvas d env, generate_image_ok d env hurl hok, ?_⟩
    rw [canvasBackground_giCanvas]
    unfold giBackdrop giBackdropFetched
    cases hbp : d.backdrop_path with
    | none => rfl
    | some p =>
      rw [hbo]
      cases d.is_manual <;> rfl

/-- Witness for the amended C7: both failure behaviours at concrete
inputs. -/
theorem compose_failure_handling_witness :
    ∃ c, generate_image withBackdropData2 backdropFailEnv2 = some c ∧
      canvasBackground c =
        some (PILImg.blur (PILImg.resize (giPosterImg backdropFailEnv2) 1280 720) 10) :=
  (compose_failure_handling withBackdropData2 backdropFailEnv2).2 rfl rfl rfl

/-- C8: whenever the paste service does not yield a recognizable link,
the get-code handler sends a document whose bytes are exactly the UTF-8
encoding of the same HTML string — the result is never dropped. -/
theorem paste_failure_sends_file (html : String) (resp : Option String)
    (h : create_paste_link html resp = none) :
    get_code html resp =
      GetCodeOutcome.sentFile "blogger_post.html" (pyEncode html)
        "⚠️ Link failed. File attached." := by
  unfold get_code
  rw [h]

/-- Witness for C8 on a concrete HTML string and failed paste request. -/
theorem paste_failure_sends_file_witness :
    get_code "<p>hello</p>" none =
      GetCodeOutcome.sentFile "blogger_post.html" (pyEncode "<p>hello</p>")
        "⚠️ Link failed. File attached." :=
  paste_failure_sends_file "<p>hello</p>" none rfl

/-- C9: every search response yields at most 15 results, and every
returned result has media type movie or tv. -/
theorem search_results_capped_filtered (data : Option (List TMDBResult)) :
    (search_tmdb data).length ≤ 15 ∧
    ∀ r ∈ search_tmdb data, r.media_type = some "movie" ∨ r.media_type = some "tv" := by
  constructor
  · cases data with
    | none => simp [search_tmdb]
    | some rs => exact List.length_take_le 15 _
  · intro r hr
    cases data with
    | none => cases hr
    | some rs =>
      unfold search_tmdb at hr
      have hr2 := List.mem_of_mem_take hr
      have hp := (List.mem_filter.mp hr2).2
      simpa using hp

/-- Witness for C9 on a concrete mixed search response. -/
theorem search_results_capped_filtered_witness :
    (search_tmdb (some sampleResults)).length ≤ 15 ∧
    (({ media_type := some "movie", id := 1 } : TMDBResult).media_type = some "movie" ∨
     ({ media_type := some "movie", id := 1 } : TMDBResult).media_type = some "tv") :=
  ⟨(search_results_capped_filtered (some sampleResults)).1,
   (search_results_capped_filtered (some sampleResults)).2
     { media_type := some "movie", id := 1 } (by decide)⟩

end PostBot
